import Mathlib

/-!
Shallow embedding of the paging core of the `os` kernel (files
`src/os/src/paging/frame_allocator.rs`, `mapper.rs`, `address_space.rs`,
`pt.rs`, `error.rs`).

Modelling conventions:
* `u64` values are modelled as `Nat`; wherever the Rust code can wrap
  (release-mode `+`, `-`, `*` on `u64`/`usize`), the model reduces
  modulo `U64 = 2 ^ 64` explicitly.
* `VirtAddr` / `PhysAddr` are modelled by their `as_u64()` value; the
  canonical-address assertion inside the external `x86_64` crate's
  `VirtAddr::new` (whose version the snapshot does not pin) is not
  modelled — addresses are plain 64-bit numbers, as the specification
  treats them.
* A `PhysFrame<Size4KiB>` is modelled by its start address
  (`PhysFrame::containing_address(a)` has start address `alignDown a`).
* The hardware CR3 register is passed explicitly as a `Nat` parameter.
* A Rust `panic!` (process abort) is modelled as the `none` result.
* Physical memory is a byte store `Nat → Nat` indexed by physical
  address; the physical-offset accessor at virtual address
  `phys_offset + p` reads physical byte `p`, so `zero_frame` acts
  directly on the physical index.
* The generic `M : Mapper<Size4KiB>` and `impl FrameAllocator<Size4KiB>`
  parameters of `map_region` are modelled by a `MapperOps` record: an
  abstract page-table state `τ` with a `mapTo` operation (returning
  `none` on failure, as `map_to(...).map_err(..)` does) and an abstract
  allocator state `σ` with an `allocate` operation.
-/

namespace OsPaging

/-- Decidable equality for `Except`, so that concrete runs of the
fallible operations can be checked by `decide`. -/
instance {ε α : Type} [DecidableEq ε] [DecidableEq α] :
    DecidableEq (Except ε α)
  | .ok a, .ok b =>
    if h : a = b then .isTrue (by rw [h])
    else .isFalse (fun he => h (Except.ok.inj he))
  | .ok _, .error _ => .isFalse (fun he => Except.noConfusion he)
  | .error _, .ok _ => .isFalse (fun he => Except.noConfusion he)
  | .error a, .error b =>
    if h : a = b then .isTrue (by rw [h])
    else .isFalse (fun he => h (Except.error.inj he))

/-- 2 ^ 64, the modulus of Rust `u64` arithmetic. -/
def U64 : Nat := 2 ^ 64

/-- `Size4KiB::SIZE`. -/
def PAGE_SIZE : Nat := 4096

/-- `mapper::USER_SPACE_END` (exclusive upper bound of user space). -/
def USER_SPACE_END : Nat := 0x800000000000

/-- `mapper::KERNEL_SPACE_START`. -/
def KERNEL_SPACE_START : Nat := 0xFFFF800000000000

/-- `x86_64::addr::align_down(a, 4096)`. -/
def alignDown (a : Nat) : Nat := a - a % PAGE_SIZE

/-- `x86_64::addr::align_up(a, 4096)`; wraps modulo 2^64 as the release
build of the crate does for addresses in the last page. -/
def alignUp (a : Nat) : Nat :=
  if a % PAGE_SIZE = 0 then a else (a / PAGE_SIZE + 1) * PAGE_SIZE % U64

/-- `bootloader_api::info::MemoryRegionKind`; only `Usable` is
distinguished by the code, the remaining kinds are collapsed into
representative constructors. -/
inductive MemoryRegionKind where
  | Usable
  | Reserved
  | Bootloader
deriving DecidableEq

/-- `bootloader_api::info::MemoryRegion`; `stop` renders the Rust field
`end` (a Lean keyword). -/
structure MemoryRegion where
  start : Nat
  stop : Nat
  kind : MemoryRegionKind
deriving DecidableEq

/-- `frame_allocator::MAX_USABLE_RANGES`. -/
def MAX_USABLE_RANGES : Nat := 32

/-- `EarlyFrameAllocator`: the valid prefix `ranges[0..len]` of the Rust
fixed array is modelled as a `List`. -/
structure EarlyFrameAllocator where
  ranges : List (Nat × Nat)
  next : Nat
  initial_total : Nat
deriving DecidableEq

/-- One iteration of the region loop in `EarlyFrameAllocator::new`:
accumulator is (retained ranges so far, running total). -/
def addRegion (reserved_end : Nat) (acc : List (Nat × Nat) × Nat)
    (region : MemoryRegion) : List (Nat × Nat) × Nat :=
  if region.kind ≠ MemoryRegionKind.Usable then acc
  else
    let start := alignUp region.start
    let e := alignDown region.stop
    if e ≤ reserved_end then acc
    else
      let start := if start < reserved_end then reserved_end else start
      if start ≥ e then acc
      else if acc.1.length < MAX_USABLE_RANGES then
        (acc.1 ++ [(start, e)], (acc.2 + (e - start)) % U64)
      else acc

/-- `EarlyFrameAllocator::new(memory_regions, _kernel_start, kernel_end)`. -/
def EarlyFrameAllocator.new (memory_regions : List MemoryRegion)
    (_kernel_start kernel_end : Nat) : EarlyFrameAllocator :=
  let reserved_end := max kernel_end 0x100000
  let p := memory_regions.foldl (addRegion reserved_end) ([], 0)
  { ranges := p.1, next := 0, initial_total := p.2 }

/-- The scan `for j in 0..n { let i = (next + j) % n; ... }` of
`allocate_frame`, returning the index of the first range (in scan
order) with `start < end`; `rem` counts the iterations still to run
(`rem = n - j`). -/
def findRangeAux (ranges : List (Nat × Nat)) (next n : Nat) :
    Nat → Nat → Option Nat
  | _, 0 => none
  | j, rem + 1 =>
    let i := (next + j) % n
    let r := ranges.getD i (0, 0)
    if r.1 < r.2 then some i else findRangeAux ranges next n (j + 1) rem

/-- The full scan of `allocate_frame`, starting at `j = 0`. -/
def findRange (ranges : List (Nat × Nat)) (next n : Nat) : Option Nat :=
  findRangeAux ranges next n 0 n

/-- `EarlyFrameAllocator::allocate_frame` (the `FrameAllocator` impl).
Returns the start address of the allocated `PhysFrame`
(`PhysFrame::containing_address(addr)`, i.e. `alignDown addr`) and the
updated allocator; the chosen range start is advanced one page
(wrapping `u64` add of the release build). -/
def EarlyFrameAllocator.allocate_frame (a : EarlyFrameAllocator) :
    Option Nat × EarlyFrameAllocator :=
  match findRange a.ranges a.next a.ranges.length with
  | none => (none, a)
  | some i =>
      let r := a.ranges.getD i (0, 0)
      (some (alignDown r.1),
       { a with next := i,
                ranges := a.ranges.set i ((r.1 + PAGE_SIZE) % U64, r.2) })

/-- `EarlyFrameAllocator::available_memory`. -/
def EarlyFrameAllocator.available_memory (a : EarlyFrameAllocator) : Nat :=
  (a.ranges.map (fun r => if r.1 < r.2 then r.2 - r.1 else 0)).sum

/-- `error::PagingError`. Context payloads are carried as `Nat`s. -/
inductive PagingError where
  | InvalidCr3
  | OutOfFrames
  | MapFailed
  | InvalidFlags
  | InvalidRange
  | KernelAddressInUserSpace (addr : Nat)
  | AlreadyMapped (page : Nat)
  | Misaligned (addr : Nat) (required : Nat)
  | SizeOverflow (start : Nat) (size : Nat)
  | CannotDestroyActive (id : Nat)
  | CannotDestroyKernel
  | SizeTooSmall (provided : Nat) (required : Nat)
  | RegionOverlap (new_start new_end : Nat)
deriving DecidableEq

/-- `x86_64::PageTableFlags`, restricted to the bits the code uses. -/
structure Flags where
  present : Bool
  writable : Bool
  user_accessible : Bool
  global : Bool
deriving DecidableEq

/-- `mapper::validate_user_address`. -/
def validate_user_address (addr : Nat) : Except PagingError Unit :=
  if addr ≥ USER_SPACE_END then .error (.KernelAddressInUserSpace addr)
  else .ok ()

/-- `mapper::validate_alignment`. -/
def validate_alignment (addr : Nat) : Except PagingError Unit :=
  if addr % PAGE_SIZE ≠ 0 then .error (.Misaligned addr PAGE_SIZE)
  else .ok ()

/-- `mapper::validate_region`.  `checked_add` returns `None` exactly
when the mathematical sum reaches `2 ^ 64`. -/
def validate_region (start size : Nat) : Except PagingError (Nat × Nat) :=
  if size = 0 then .error (.SizeTooSmall size PAGE_SIZE)
  else if start + size ≥ U64 then .error (.SizeOverflow start size)
  else
    if start < USER_SPACE_END ∧ start + size > USER_SPACE_END then
      .error .InvalidRange
    else .ok (start, start + size)

/-- `mapper::validate_user_flags`. -/
def validate_user_flags (flags : Flags) : Except PagingError Unit :=
  if !flags.user_accessible then .error .InvalidFlags
  else if flags.global then .error .InvalidFlags
  else .ok ()

/-- `mapper::validate_kernel_flags`. -/
def validate_kernel_flags (flags : Flags) : Except PagingError Unit :=
  if flags.user_accessible then .error .InvalidFlags
  else .ok ()

/-- `mapper::MapType`. -/
inductive MapType where
  | Identity
  | Allocate
deriving DecidableEq

/-- Abstract interface for the generic `M : Mapper<Size4KiB>` page
table (state `τ`) and `impl FrameAllocator<Size4KiB>` (state `σ`) that
`map_region` receives.  `mapTo pt page frame flags fa` models
`mapper.map_to(page, frame, flags, frame_allocator)`, `none` standing
for the error case. -/
structure MapperOps (τ σ : Type) where
  allocate : σ → Option Nat × σ
  mapTo : τ → Nat → Nat → Flags → σ → Option (τ × σ)

/-- The page loop `for i in 0..page_count` of `map_region`, recursing
on the number of remaining pages; `page` is the start address of the
current page. -/
def mapPages {τ σ : Type} (ops : MapperOps τ σ) (flags : Flags)
    (map_type : MapType) :
    Nat → Nat → τ → σ → Except PagingError Unit × τ × σ
  | _, 0, pt, fa => (.ok (), pt, fa)
  | page, k + 1, pt, fa =>
    match map_type with
    | .Identity =>
      match ops.mapTo pt page (alignDown page) flags fa with
      | none => (.error .MapFailed, pt, fa)
      | some (pt', fa') =>
          mapPages ops flags .Identity (page + PAGE_SIZE) k pt' fa'
    | .Allocate =>
      match ops.allocate fa with
      | (none, fa') => (.error .OutOfFrames, pt, fa')
      | (some f, fa') =>
        match ops.mapTo pt page f flags fa' with
        | none => (.error .MapFailed, pt, fa')
        | some (pt', fa'') =>
            mapPages ops flags .Allocate (page + PAGE_SIZE) k pt' fa''

/-- `mapper::map_region`. -/
def map_region {τ σ : Type} (ops : MapperOps τ σ) (pt : τ) (fa : σ)
    (virt_start size : Nat) (flags : Flags) (map_type : MapType) :
    Except PagingError Unit × τ × σ :=
  match validate_alignment virt_start with
  | .error e => (.error e, pt, fa)
  | .ok _ =>
  match validate_region virt_start size with
  | .error e => (.error e, pt, fa)
  | .ok _ =>
  match
    (if virt_start < USER_SPACE_END then validate_user_flags flags
     else validate_kernel_flags flags) with
  | .error e => (.error e, pt, fa)
  | .ok _ =>
  if !flags.present then (.error .InvalidFlags, pt, fa)
  else
    let page_count := (size + PAGE_SIZE - 1) % U64 / PAGE_SIZE
    let start_page := alignDown virt_start
    mapPages ops flags map_type start_page page_count pt fa

/-- `mapper::zero_frame(frame, phys_offset)`: writes 4096 zero bytes
through the physical-offset accessor, i.e. zeroes physical bytes
`[frame, frame + 4096)` of the byte store. -/
def zeroFrame (mem : Nat → Nat) (frame : Nat) : Nat → Nat :=
  fun a => if frame ≤ a ∧ a < frame + PAGE_SIZE then 0 else mem a

/-- The page loop of `map_region_zeroed`: allocate a frame, zero it
through the physical-offset accessor, then map it. -/
def mapPagesZeroed {τ σ : Type} (ops : MapperOps τ σ) (flags : Flags) :
    Nat → Nat → τ → σ → (Nat → Nat) →
      Except PagingError Unit × τ × σ × (Nat → Nat)
  | _, 0, pt, fa, mem => (.ok (), pt, fa, mem)
  | page, k + 1, pt, fa, mem =>
    match ops.allocate fa with
    | (none, fa') => (.error .OutOfFrames, pt, fa', mem)
    | (some f, fa') =>
      let mem' := zeroFrame mem f
      match ops.mapTo pt page f flags fa' with
      | none => (.error .MapFailed, pt, fa', mem')
      | some (pt', fa'') =>
          mapPagesZeroed ops flags (page + PAGE_SIZE) k pt' fa'' mem'

/-- `mapper::map_region_zeroed`. -/
def map_region_zeroed {τ σ : Type} (ops : MapperOps τ σ) (pt : τ)
    (fa : σ) (mem : Nat → Nat) (virt_start size : Nat) (flags : Flags) :
    Except PagingError Unit × τ × σ × (Nat → Nat) :=
  match validate_alignment virt_start with
  | .error e => (.error e, pt, fa, mem)
  | .ok _ =>
  match validate_region virt_start size with
  | .error e => (.error e, pt, fa, mem)
  | .ok _ =>
  match
    (if virt_start < USER_SPACE_END then validate_user_flags flags
     else validate_kernel_flags flags) with
  | .error e => (.error e, pt, fa, mem)
  | .ok _ =>
  if !flags.present then (.error .InvalidFlags, pt, fa, mem)
  else
    let page_count := (size + PAGE_SIZE - 1) % U64 / PAGE_SIZE
    let start_page := alignDown virt_start
    mapPagesZeroed ops flags start_page page_count pt fa mem

/-- `address_space::AddressSpaceId`. -/
structure AddressSpaceId where
  val : Nat
deriving DecidableEq

/-- `AddressSpaceId::KERNEL`. -/
def AddressSpaceId.KERNEL : AddressSpaceId := ⟨0⟩

/-- `AddressSpaceId::is_kernel`. -/
def AddressSpaceId.is_kernel (i : AddressSpaceId) : Bool := i.val == 0

/-- `address_space::MemoryStats` (fields are Rust `usize`, 64-bit). -/
structure MemoryStats where
  mapped_pages : Nat
  user_pages : Nat
  kernel_pages : Nat
deriving DecidableEq

/-- `MemoryStats::default()`. -/
def MemoryStats.default : MemoryStats := ⟨0, 0, 0⟩

/-- `pt::PageTableRoot`: physical root frame plus physical-memory
offset. -/
structure PageTableRoot where
  pml4 : Nat
  phys_offset : Nat
deriving DecidableEq

/-- `PageTableRoot::frame`. -/
def PageTableRoot.frame (r : PageTableRoot) : Nat := r.pml4

/-- `address_space::AddressSpace`. -/
structure AddressSpace where
  id : AddressSpaceId
  pt_root : PageTableRoot
  stats : MemoryStats
deriving DecidableEq

/-- `AddressSpace::from_existing(id, root_frame, kernel_offset)`. -/
def AddressSpace.from_existing (id : AddressSpaceId)
    (root_frame kernel_offset : Nat) : AddressSpace :=
  { id := id, pt_root := ⟨root_frame, kernel_offset⟩,
    stats := MemoryStats.default }

/-- `AddressSpace::is_active`: compares the frame currently loaded in
the hardware root-table register (`Cr3::read().0`, passed explicitly
as `cr3`) with this space's root frame. -/
def AddressSpace.is_active (s : AddressSpace) (cr3 : Nat) : Bool :=
  cr3 == s.pt_root.frame

/-- `AddressSpace::root_frame`. -/
def AddressSpace.root_frame (s : AddressSpace) : Nat := s.pt_root.frame

/-- Wrapping `u64` subtraction `a - b` of the release build (both
arguments below `2 ^ 64`). -/
def u64sub (a b : Nat) : Nat := (U64 + a - b) % U64

/-- `AddressSpace::create`.  `emptyTable` is the page-table state of
the freshly allocated, zeroed root frame (`zero_frame` +
`OffsetPageTable::new`); the written table itself lives in physical
memory and is dropped with the local `mapper`, so only the allocator
state and the constructed `AddressSpace` are returned. -/
def AddressSpace.create {τ σ : Type} (ops : MapperOps τ σ)
    (emptyTable : τ) (id : AddressSpaceId) (fa : σ)
    (kernel_offset kernel_start kernel_end : Nat) :
    Except PagingError AddressSpace × σ :=
  match ops.allocate fa with
  | (none, fa') => (.error .OutOfFrames, fa')
  | (some root_frame, fa') =>
    let size := u64sub kernel_end kernel_start
    let r := map_region ops emptyTable fa' kernel_start size
      ⟨true, true, false, true⟩ .Identity
    match r.1 with
    | .error e => (.error e, r.2.2)
    | .ok _ =>
      let kernel_pages := size / PAGE_SIZE
      (.ok { id := id, pt_root := ⟨root_frame, kernel_offset⟩,
             stats := { mapped_pages := kernel_pages, user_pages := 0,
                        kernel_pages := kernel_pages } }, r.2.2)

/-- `AddressSpace::map_user_region`.  `pt` is the page-table state of
`self.pt_root.mapper()`; flags are
`PRESENT | WRITABLE | USER_ACCESSIBLE`, mode `Allocate`.  The `usize`
page count and the statistics additions wrap modulo `2 ^ 64` as the
release build does. -/
def AddressSpace.map_user_region {τ σ : Type} (ops : MapperOps τ σ)
    (s : AddressSpace) (pt : τ) (fa : σ) (start size : Nat) :
    Except PagingError Unit × AddressSpace × τ × σ :=
  let page_count := (size + PAGE_SIZE - 1) % U64 / PAGE_SIZE
  let r := map_region ops pt fa start size ⟨true, true, true, false⟩
    .Allocate
  match r.1 with
  | .error e => (.error e, s, r.2.1, r.2.2)
  | .ok _ =>
    (.ok (),
     { s with stats :=
        { mapped_pages := (s.stats.mapped_pages + page_count) % U64,
          user_pages := (s.stats.user_pages + page_count) % U64,
          kernel_pages := s.stats.kernel_pages } },
     r.2.1, r.2.2)

/-- `AddressSpace::map_kernel_region`: flags
`PRESENT | WRITABLE | GLOBAL`, mode `Identity`. -/
def AddressSpace.map_kernel_region {τ σ : Type} (ops : MapperOps τ σ)
    (s : AddressSpace) (pt : τ) (fa : σ) (start size : Nat) :
    Except PagingError Unit × AddressSpace × τ × σ :=
  let page_count := (size + PAGE_SIZE - 1) % U64 / PAGE_SIZE
  let r := map_region ops pt fa start size ⟨true, true, false, true⟩
    .Identity
  match r.1 with
  | .error e => (.error e, s, r.2.1, r.2.2)
  | .ok _ =>
    (.ok (),
     { s with stats :=
        { mapped_pages := (s.stats.mapped_pages + page_count) % U64,
          user_pages := s.stats.user_pages,
          kernel_pages := (s.stats.kernel_pages + page_count) % U64 } },
     r.2.1, r.2.2)

/-- `AddressSpace::destroy(frame_allocator)`.  `debug_assertions`
selects the build profile (the active-space check is compiled only
under `#[cfg(debug_assertions)]`); `cr3` is the frame currently in the
hardware root-table register.  A `panic!` is the `none` result; a
normal return hands back the (untouched) allocator. -/
def AddressSpace.destroy (debug_assertions : Bool) (cr3 : Nat)
    (s : AddressSpace) (frame_allocator : EarlyFrameAllocator) :
    Option EarlyFrameAllocator :=
  if s.id = AddressSpaceId.KERNEL then none
  else if debug_assertions && s.is_active cr3 then none
  else some frame_allocator

/-- A concrete instance of `MapperOps` used to witness the generic
theorems: the page table is an association list page ↦ frame, `mapTo`
fails exactly on an already-mapped page (the `x86_64`
`OffsetPageTable::map_to` failure the code turns into `MapFailed`),
and frames come from an `EarlyFrameAllocator`. -/
def listOps : MapperOps (List (Nat × Nat)) EarlyFrameAllocator :=
  { allocate := EarlyFrameAllocator.allocate_frame,
    mapTo := fun pt page frame _flags fa =>
      if pt.any (fun e => e.1 == page) then none
      else some ((page, frame) :: pt, fa) }

/-- Trace predicate for the loop of `map_region`: `MRun ops flags mt pt
fa page fs pt' fa'` states that starting from page-table state `pt`,
allocator state `fa` and first page `page`, the loop performed
`fs.length` successful iterations installing exactly the frames `fs`
(in order, one page each, consecutive pages), ending in states `pt'`,
`fa'`.  In `Allocate` mode each frame is the output of the allocator
at its point in the sequence. -/
inductive MRun {τ σ : Type} (ops : MapperOps τ σ) (flags : Flags) :
    MapType → τ → σ → Nat → List Nat → τ → σ → Prop where
  | nil (mt : MapType) (pt : τ) (fa : σ) (page : Nat) :
      MRun ops flags mt pt fa page [] pt fa
  | consId (pt : τ) (fa : σ) (page : Nat) (fs : List Nat)
      (pt₁ : τ) (fa₁ : σ) (pt' : τ) (fa' : σ)
      (hmap : ops.mapTo pt page (alignDown page) flags fa = some (pt₁, fa₁))
      (hrest : MRun ops flags .Identity pt₁ fa₁ (page + PAGE_SIZE) fs pt' fa') :
      MRun ops flags .Identity pt fa page (alignDown page :: fs) pt' fa'
  | consAlloc (pt : τ) (fa : σ) (page f : Nat) (fa₁ : σ) (fs : List Nat)
      (pt₁ : τ) (fa₂ : σ) (pt' : τ) (fa' : σ)
      (halloc : ops.allocate fa = (some f, fa₁))
      (hmap : ops.mapTo pt page f flags fa₁ = some (pt₁, fa₂))
      (hrest : MRun ops flags .Allocate pt₁ fa₂ (page + PAGE_SIZE) fs pt' fa') :
      MRun ops flags .Allocate pt fa page (f :: fs) pt' fa'

/-- Trace predicate for the loop of `map_region_zeroed`: each
successful iteration draws a fresh frame from the allocator, zeroes it
in the byte store, and installs it. -/
inductive ZRun {τ σ : Type} (ops : MapperOps τ σ) (flags : Flags) :
    τ → σ → (Nat → Nat) → Nat → List Nat → τ → σ → (Nat → Nat) → Prop where
  | nil (pt : τ) (fa : σ) (mem : Nat → Nat) (page : Nat) :
      ZRun ops flags pt fa mem page [] pt fa mem
  | cons (pt : τ) (fa : σ) (mem : Nat → Nat) (page f : Nat) (fa₁ : σ)
      (fs : List Nat) (pt₁ : τ) (fa₂ : σ) (pt' : τ) (fa' : σ)
      (mem' : Nat → Nat)
      (halloc : ops.allocate fa = (some f, fa₁))
      (hmap : ops.mapTo pt page f flags fa₁ = some (pt₁, fa₂))
      (hrest : ZRun ops flags pt₁ fa₂ (zeroFrame mem f) (page + PAGE_SIZE)
        fs pt' fa' mem') :
      ZRun ops flags pt fa mem page (f :: fs) pt' fa' mem'

/-- Iterated `zeroFrame` over a list of frames (the byte store after
the zeroing steps of the first `fs.length` loop iterations). -/
def zeroMany (mem : Nat → Nat) : List Nat → (Nat → Nat)
  | [] => mem
  | f :: fs => zeroMany (zeroFrame mem f) fs

/-- The implicit statistics invariant of claim C10, stated in wrapping
`usize` arithmetic: the mapped-page counter equals the sum of the user
and kernel counters. -/
def statsInv (st : MemoryStats) : Prop :=
  st.mapped_pages = (st.user_pages + st.kernel_pages) % U64

/-- The statistics invariant is decidable, so concrete witnesses can
be checked by evaluation. -/
instance (st : MemoryStats) : Decidable (statsInv st) :=
  inferInstanceAs (Decidable (_ = _))

/-- The allocator of the scenario of claim C8: the documented memory
map with kernel end `0x200000`. -/
def c8alloc : EarlyFrameAllocator :=
  EarlyFrameAllocator.new
    [⟨0x0, 0x9FFFF, .Usable⟩, ⟨0x9FFFF, 0x100000, .Reserved⟩,
     ⟨0x100000, 0x20000000, .Usable⟩] 0x100000 0x200000

/-- An allocator built with the unaligned kernel end `0x200001`
(`init` passes `kernel_addr + kernel_len`, which need not be
page-aligned). -/
def c3alloc : EarlyFrameAllocator :=
  EarlyFrameAllocator.new [⟨0x100000, 0x20000000, .Usable⟩]
    0x100000 0x200001

/-- Claim C8: on the memory map `[(0x0, 0x9FFFF, Usable), (0x9FFFF,
0x100000, Reserved), (0x100000, 0x20000000, Usable)]` with kernel end
`0x200000`, `EarlyFrameAllocator::new` retains exactly the single
range `(0x200000, 0x20000000)`, the first `allocate_frame()` returns
physical address `0x200000` and the second returns `0x201000`. -/
theorem c8_scenario_single_range_and_first_two_frames :
    c8alloc.ranges = [(0x200000, 0x20000000)] ∧
    c8alloc.allocate_frame.1 = some 0x200000 ∧
    c8alloc.allocate_frame.2.allocate_frame.1 = some 0x201000 := by
  decide

/-- Claim C3 fails on the code: with a page-unaligned `kernel_end =
0x200001` (as produced by `init`, where `kernel_end = kernel_addr +
kernel_len`), the reserved-prefix trim of `EarlyFrameAllocator::new`
leaves an unaligned range start `0x200001` — contradicting the struct
documentation "ranges (start, end), page-aligned" and the allocation
comment "addr is page-aligned because we aligned it during init" — and
the first `allocate_frame()` then returns the frame at `0x200000`,
which lies outside every retained range (inside the kernel-reserved
prefix). -/
theorem c3_unaligned_kernel_end_breaks_allocator_guarantees :
    c3alloc.ranges = [(0x200001, 0x20000000)] ∧
    ¬ 0x200001 % PAGE_SIZE = 0 ∧
    c3alloc.allocate_frame.1 = some 0x200000 ∧
    (∀ r ∈ c3alloc.ranges, ¬(r.1 ≤ 0x200000 ∧ 0x200000 < r.2)) := by
  decide

/-- Claim C1 fails as stated: in a release build (no debug
assertions), `destroy` on a non-kernel address space whose root frame
equals the frame loaded in CR3 returns normally instead of
panicking — the active-space check is compiled only under
`#[cfg(debug_assertions)]`. -/
theorem c1_counterexample_release_destroy_active_returns :
    AddressSpace.is_active ⟨⟨1⟩, ⟨0x5000, 0⟩, ⟨0, 0, 0⟩⟩ 0x5000 = true ∧
    AddressSpace.destroy false 0x5000 ⟨⟨1⟩, ⟨0x5000, 0⟩, ⟨0, 0, 0⟩⟩
        ⟨[], 0, 0⟩ = some ⟨[], 0, 0⟩ := by
  decide

/-- Claim C1 (amended): `destroy` on the kernel address space id
panics in every build; `destroy` on a space whose root frame equals
the CR3 frame panics in builds with debug assertions enabled. -/
theorem c1_destroy_kernel_or_debug_active_panics (dbg : Bool)
    (cr3 : Nat) (s : AddressSpace) (fa : EarlyFrameAllocator) :
    (s.id = AddressSpaceId.KERNEL → s.destroy dbg cr3 fa = none) ∧
    (dbg = true → s.is_active cr3 = true → s.destroy dbg cr3 fa = none) := by
  constructor
  · intro h
    simp [AddressSpace.destroy, h]
  · intro hd ha
    by_cases hk : s.id = AddressSpaceId.KERNEL
    · simp [AddressSpace.destroy, hk]
    · simp [AddressSpace.destroy, hk, hd, ha]

/-- Witness for the amended claim C1 at concrete inputs: the kernel
space (id 0) and an active space (root frame = CR3 = 7) under debug
assertions. -/
theorem c1_destroy_kernel_or_debug_active_panics_witness :
    AddressSpace.destroy true 7 ⟨⟨0⟩, ⟨9, 0⟩, ⟨0, 0, 0⟩⟩ ⟨[], 0, 0⟩
        = none ∧
    AddressSpace.destroy true 7 ⟨⟨1⟩, ⟨7, 0⟩, ⟨0, 0, 0⟩⟩ ⟨[], 0, 0⟩
        = none :=
  ⟨(c1_destroy_kernel_or_debug_active_panics true 7
      ⟨⟨0⟩, ⟨9, 0⟩, ⟨0, 0, 0⟩⟩ ⟨[], 0, 0⟩).1 (by decide),
   (c1_destroy_kernel_or_debug_active_panics true 7
      ⟨⟨1⟩, ⟨7, 0⟩, ⟨0, 0, 0⟩⟩ ⟨[], 0, 0⟩).2 rfl (by decide)⟩

/-- Claim C2 fails as stated: `destroy` on a non-kernel, non-active
space returns the frame allocator unchanged — the root frame `0x5000`
is not added to any range, so it never becomes available for
allocation again (the body explicitly skips deallocation because
`EarlyFrameAllocator` has none). -/
theorem c2_counterexample_root_frame_not_returned :
    AddressSpace.destroy true 0x9000 ⟨⟨1⟩, ⟨0x5000, 0⟩, ⟨0, 0, 0⟩⟩
        ⟨[(0x200000, 0x201000)], 0, 0x1000⟩
      = some ⟨[(0x200000, 0x201000)], 0, 0x1000⟩ ∧
    (∀ r ∈ [((0x200000 : Nat), (0x201000 : Nat))],
      ¬(r.1 ≤ 0x5000 ∧ 0x5000 < r.2)) := by
  decide

/-- Claim C2 (amended): for every non-kernel address space that is not
active (in the sense checked by the build), `destroy` returns normally
and leaves the frame allocator completely unchanged; the root frame is
leaked, not reclaimed. -/
theorem c2_destroy_returns_allocator_unchanged (dbg : Bool) (cr3 : Nat)
    (s : AddressSpace) (fa : EarlyFrameAllocator)
    (hk : ¬ s.id = AddressSpaceId.KERNEL)
    (ha : dbg = true → s.is_active cr3 = false) :
    s.destroy dbg cr3 fa = some fa := by
  cases dbg with
  | false => simp [AddressSpace.destroy, hk]
  | true => simp [AddressSpace.destroy, hk, ha rfl]

/-- Witness for the amended claim C2: a non-kernel space (id 1, root
frame 0x5000) with CR3 = 0x9000 under debug assertions. -/
theorem c2_destroy_returns_allocator_unchanged_witness :
    AddressSpace.destroy true 0x9000 ⟨⟨1⟩, ⟨0x5000, 0⟩, ⟨0, 0, 0⟩⟩
        ⟨[(0x200000, 0x201000)], 0, 0x1000⟩
      = some ⟨[(0x200000, 0x201000)], 0, 0x1000⟩ :=
  c2_destroy_returns_allocator_unchanged true 0x9000
    ⟨⟨1⟩, ⟨0x5000, 0⟩, ⟨0, 0, 0⟩⟩ ⟨[(0x200000, 0x201000)], 0, 0x1000⟩
    (by decide) (fun _ => by decide)

/-- Claim C6: for `u64` inputs, `validate_region` fails with
`SizeTooSmall` on size zero, with `SizeOverflow` when `start + size`
overflows the address width, and with `InvalidRange` when the
(non-overflowing, non-empty) half-open region straddles the canonical
boundary `0x8000_0000_0000`. -/
theorem c6_validate_region_error_cases (start size : Nat)
    (_hs : start < U64) (_hz : size < U64) :
    (size = 0 →
      validate_region start size = .error (.SizeTooSmall size PAGE_SIZE)) ∧
    (size ≠ 0 → U64 ≤ start + size →
      validate_region start size = .error (.SizeOverflow start size)) ∧
    (size ≠ 0 → start + size < U64 →
      start < USER_SPACE_END → USER_SPACE_END < start + size →
      validate_region start size = .error .InvalidRange) := by
  refine ⟨?_, ?_, ?_⟩
  · intro h
    simp [validate_region, h]
  · intro h hov
    rw [validate_region, if_neg h, if_pos (by omega)]
  · intro h hov hlt hgt
    rw [validate_region, if_neg h, if_neg (by omega),
      if_pos ⟨hlt, hgt⟩]

/-- Witness for claim C6 at the spec's concrete inputs:
`validate_region(0x1000, 0)`, `validate_region(u64::MAX - 0x100,
0x1000)` and the straddling region starting one page below the
canonical boundary. -/
theorem c6_validate_region_error_cases_witness :
    validate_region 0x1000 0 = .error (.SizeTooSmall 0 PAGE_SIZE) ∧
    validate_region (U64 - 0x101) 0x1000
      = .error (.SizeOverflow (U64 - 0x101) 0x1000) ∧
    validate_region (USER_SPACE_END - 0x1000) 0x2000
      = .error .InvalidRange :=
  ⟨(c6_validate_region_error_cases 0x1000 0 (by norm_num [U64])
      (by norm_num [U64])).1 rfl,
   (c6_validate_region_error_cases (U64 - 0x101) 0x1000
      (by norm_num [U64]) (by norm_num [U64])).2.1 (by norm_num)
      (by norm_num [U64]),
   (c6_validate_region_error_cases (USER_SPACE_END - 0x1000) 0x2000
      (by norm_num [U64, USER_SPACE_END]) (by norm_num [U64])).2.2
      (by norm_num) (by norm_num [U64, USER_SPACE_END])
      (by norm_num [USER_SPACE_END]) (by norm_num [USER_SPACE_END])⟩

/-- Claim C5: once the alignment and region validations of
`map_region` pass, a user-destined start (below the canonical
boundary) yields `InvalidFlags` unless the flags carry
`USER_ACCESSIBLE` and not `GLOBAL`; a kernel-destined start yields
`InvalidFlags` if the flags carry `USER_ACCESSIBLE`; and missing
`PRESENT` yields `InvalidFlags` in either case. -/
theorem c5_map_region_flag_checks {τ σ : Type} (ops : MapperOps τ σ)
    (pt : τ) (fa : σ) (vs size : Nat) (flags : Flags) (mt : MapType)
    (halign : validate_alignment vs = .ok ())
    (hregion : validate_region vs size = .ok (vs, vs + size)) :
    (vs < USER_SPACE_END →
      ¬(flags.user_accessible = true ∧ flags.global = false) →
      (map_region ops pt fa vs size flags mt).1 = .error .InvalidFlags) ∧
    (¬ vs < USER_SPACE_END → flags.user_accessible = true →
      (map_region ops pt fa vs size flags mt).1 = .error .InvalidFlags) ∧
    (flags.present = false →
      (map_region ops pt fa vs size flags mt).1 = .error .InvalidFlags) := by
  refine ⟨?_, ?_, ?_⟩
  · intro hlt hbad
    simp only [map_region, halign, hregion, if_pos hlt]
    cases hua : flags.user_accessible with
    | false => simp [validate_user_flags, hua]
    | true =>
      cases hg : flags.global with
      | false => exact absurd ⟨hua, hg⟩ hbad
      | true => simp [validate_user_flags, hua, hg]
  · intro hge hua
    simp only [map_region, halign, hregion, if_neg hge]
    simp [validate_kernel_flags, hua]
  · intro hp
    simp only [map_region, halign, hregion]
    by_cases hlt : vs < USER_SPACE_END
    · rw [if_pos hlt]
      cases hua : flags.user_accessible with
      | false => simp [validate_user_flags, hua]
      | true =>
        cases hg : flags.global with
        | true => simp [validate_user_flags, hua, hg]
        | false => simp [validate_user_flags, hua, hg, hp]
    · rw [if_neg hlt]
      cases hua : flags.user_accessible with
      | true => simp [validate_kernel_flags, hua]
      | false => simp [validate_kernel_flags, hua, hp]

/-- Witness for claim C5 at concrete inputs: a user-space region
mapped without `USER_ACCESSIBLE`, a kernel-space region mapped with
`USER_ACCESSIBLE`, and a user-space region without `PRESENT`; each
rejected as `InvalidFlags`. -/
theorem c5_map_region_flag_checks_witness :
    (map_region listOps [] ⟨[], 0, 0⟩ 0x1000 0x1000
      ⟨true, true, false, false⟩ .Allocate).1 = .error .InvalidFlags ∧
    (map_region listOps [] ⟨[], 0, 0⟩ KERNEL_SPACE_START 0x1000
      ⟨true, true, true, false⟩ .Identity).1 = .error .InvalidFlags ∧
    (map_region listOps [] ⟨[], 0, 0⟩ 0x1000 0x1000
      ⟨false, true, true, false⟩ .Allocate).1 = .error .InvalidFlags :=
  ⟨(c5_map_region_flag_checks listOps [] ⟨[], 0, 0⟩ 0x1000 0x1000
      ⟨true, true, false, false⟩ .Allocate (by decide) (by decide)).1
      (by decide) (by decide),
   (c5_map_region_flag_checks listOps [] ⟨[], 0, 0⟩ KERNEL_SPACE_START
      0x1000 ⟨true, true, true, false⟩ .Identity (by decide)
      (by decide)).2.1 (by decide) rfl,
   (c5_map_region_flag_checks listOps [] ⟨[], 0, 0⟩ 0x1000 0x1000
      ⟨false, true, true, false⟩ .Allocate (by decide) (by decide)).2.2
      rfl⟩

/-- Helper: a `MapFailed` outcome of the page loop of `map_region`
decomposes into a prefix of successfully installed pages — still
present in the returned table state — followed by the first failing
installation. -/
theorem mapPages_mapFailed_run {τ σ : Type} (ops : MapperOps τ σ)
    (flags : Flags) (mt : MapType) :
    ∀ (count page : Nat) (pt : τ) (fa : σ),
      (mapPages ops flags mt page count pt fa).1 = .error .MapFailed →
      ∃ fs ptE faE, MRun ops flags mt pt fa page fs ptE faE ∧
        (mapPages ops flags mt page count pt fa).2.1 = ptE ∧
        fs.length < count ∧
        ∃ f faM,
          ((mt = .Identity ∧ faM = faE ∧
              f = alignDown (page + fs.length * PAGE_SIZE)) ∨
           (mt = .Allocate ∧ ops.allocate faE = (some f, faM))) ∧
          ops.mapTo ptE (page + fs.length * PAGE_SIZE) f flags faM
            = none := by
  intro count
  induction count with
  | zero =>
    intro page pt fa h
    simp [mapPages] at h
  | succ k ih =>
    intro page pt fa h
    cases mt with
    | Identity =>
      cases hm : ops.mapTo pt page (alignDown page) flags fa with
      | none =>
        simp only [mapPages, hm] at h ⊢
        exact ⟨[], pt, fa, .nil _ _ _ _, rfl, Nat.succ_pos _,
          alignDown page, fa, .inl ⟨by simp, rfl, by simp⟩, by simpa using hm⟩
      | some pr =>
        obtain ⟨pt₁, fa₁⟩ := pr
        simp only [mapPages, hm] at h ⊢
        obtain ⟨fs, ptE, faE, hrun, hpt, hlen, f, faM, hcase, hfail⟩ :=
          ih (page + PAGE_SIZE) pt₁ fa₁ h
        refine ⟨alignDown page :: fs, ptE, faE,
          .consId _ _ _ _ _ _ _ _ hm hrun, hpt, by simpa using hlen,
          f, faM, ?_, ?_⟩
        · rcases hcase with ⟨h1, h2, h3⟩ | ⟨h1, _⟩
          · refine .inl ⟨by simp, h2, ?_⟩
            rw [h3]
            congr 1
            simp [List.length_cons]
            ring
          · exact absurd h1 (by simp)
        · convert hfail using 2
          simp [List.length_cons]
          ring
    | Allocate =>
      cases ha : ops.allocate fa with
      | mk o fa' =>
        cases o with
        | none =>
          simp only [mapPages, ha] at h
          exact absurd h (by simp)
        | some f0 =>
          cases hm : ops.mapTo pt page f0 flags fa' with
          | none =>
            simp only [mapPages, ha, hm] at h ⊢
            exact ⟨[], pt, fa, .nil _ _ _ _, rfl, Nat.succ_pos _,
              f0, fa', .inr ⟨by simp, ha⟩, by simpa using hm⟩
          | some pr =>
            obtain ⟨pt₁, fa₂⟩ := pr
            simp only [mapPages, ha, hm] at h ⊢
            obtain ⟨fs, ptE, faE, hrun, hpt, hlen, f, faM, hcase, hfail⟩ :=
              ih (page + PAGE_SIZE) pt₁ fa₂ h
            refine ⟨f0 :: fs, ptE, faE,
              .consAlloc _ _ _ _ _ _ _ _ _ _ ha hm hrun, hpt,
              by simpa using hlen, f, faM, ?_, ?_⟩
            · rcases hcase with ⟨h1, _⟩ | ⟨_, h2⟩
              · exact absurd h1 (by simp)
              · exact .inr ⟨by simp, h2⟩
            · convert hfail using 2
              simp [List.length_cons]
              ring

/-- Claim C4: in `map_region`, every validation (alignment, region,
flags, presence) runs before the page loop — any validation failure
returns its error with the page-table and allocator states untouched —
and a `MapFailed` outcome decomposes into the prefix of pages
installed before the first failing page, all still present in the
returned table state (no rollback), followed by that failing
installation. -/
theorem c4_map_region_validates_first_no_rollback {τ σ : Type}
    (ops : MapperOps τ σ) (pt : τ) (fa : σ) (vs size : Nat)
    (flags : Flags) (mt : MapType) :
    ((¬ validate_alignment vs = .ok () ∨
      (∀ p, ¬ validate_region vs size = .ok p) ∨
      ¬ (if vs < USER_SPACE_END then validate_user_flags flags
         else validate_kernel_flags flags) = .ok () ∨
      flags.present = false) →
      ∃ e, map_region ops pt fa vs size flags mt = (.error e, pt, fa)) ∧
    ((map_region ops pt fa vs size flags mt).1 = .error .MapFailed →
      ∃ fs ptE faE,
        MRun ops flags mt pt fa (alignDown vs) fs ptE faE ∧
        (map_region ops pt fa vs size flags mt).2.1 = ptE ∧
        fs.length < (size + PAGE_SIZE - 1) % U64 / PAGE_SIZE ∧
        ∃ f faM,
          ((mt = .Identity ∧ faM = faE ∧
              f = alignDown (alignDown vs + fs.length * PAGE_SIZE)) ∨
           (mt = .Allocate ∧ ops.allocate faE = (some f, faM))) ∧
          ops.mapTo ptE (alignDown vs + fs.length * PAGE_SIZE) f flags
            faM = none) := by
  constructor
  · intro hd
    cases hva : validate_alignment vs with
    | error e => exact ⟨e, by simp [map_region, hva]⟩
    | ok u =>
      cases hvr : validate_region vs size with
      | error e => exact ⟨e, by simp [map_region, hva, hvr]⟩
      | ok p =>
        cases hvf : (if vs < USER_SPACE_END then validate_user_flags flags
            else validate_kernel_flags flags) with
        | error e => exact ⟨e, by simp [map_region, hva, hvr, hvf]⟩
        | ok v =>
          cases hp : flags.present with
          | false =>
            exact ⟨.InvalidFlags, by simp [map_region, hva, hvr, hvf, hp]⟩
          | true =>
            rcases hd with h | h | h | h
            · cases u
              exact absurd hva h
            · exact absurd hvr (h p)
            · cases v
              exact absurd hvf h
            · rw [hp] at h
              exact Bool.noConfusion h
  · intro h
    cases hva : validate_alignment vs with
    | error e =>
      simp only [map_region, hva] at h
      cases h
      unfold validate_alignment at hva
      split at hva <;> simp at hva
    | ok u =>
      cases hvr : validate_region vs size with
      | error e =>
        simp only [map_region, hva, hvr] at h
        cases h
        unfold validate_region at hvr
        split at hvr
        · simp at hvr
        · split at hvr
          · simp at hvr
          · split at hvr <;> simp at hvr
      | ok p =>
        cases hvf : (if vs < USER_SPACE_END then validate_user_flags flags
            else validate_kernel_flags flags) with
        | error e =>
          simp only [map_region, hva, hvr, hvf] at h
          cases h
          split at hvf
          · unfold validate_user_flags at hvf
            split at hvf
            · simp at hvf
            · split at hvf <;> simp at hvf
          · unfold validate_kernel_flags at hvf
            split at hvf <;> simp at hvf
        | ok v =>
          cases hp : flags.present with
          | false =>
            simp only [map_region, hva, hvr, hvf, hp] at h
            simp at h
          | true =>
            simp only [map_region, hva, hvr, hvf, hp] at h ⊢
            simp only [Bool.not_true, Bool.false_eq_true, if_false] at h ⊢
            exact mapPages_mapFailed_run ops flags mt _ _ pt fa h

/-- Witness for claim C4: a misaligned start is rejected with no state
change, and a two-page user mapping whose second page is already
present in the table fails with `MapFailed` while the first page stays
installed. -/
theorem c4_map_region_validates_first_no_rollback_witness :
    (∃ e, map_region listOps [(0x2000, 0x9000)]
        ⟨[(0x200000, 0x20000000)], 0, 0⟩ 0x1001 0x1000
        ⟨true, true, true, false⟩ .Allocate
        = (.error e, [(0x2000, 0x9000)],
           ⟨[(0x200000, 0x20000000)], 0, 0⟩)) ∧
    (∃ fs ptE faE,
      MRun listOps ⟨true, true, true, false⟩ .Allocate
        [(0x2000, 0x9000)] ⟨[(0x200000, 0x20000000)], 0, 0⟩
        (alignDown 0x1000) fs ptE faE ∧
      (map_region listOps [(0x2000, 0x9000)]
        ⟨[(0x200000, 0x20000000)], 0, 0⟩ 0x1000 0x2000
        ⟨true, true, true, false⟩ .Allocate).2.1 = ptE ∧
      fs.length < (0x2000 + PAGE_SIZE - 1) % U64 / PAGE_SIZE ∧
      ∃ f faM,
        ((MapType.Allocate = .Identity ∧ faM = faE ∧
            f = alignDown (alignDown 0x1000 + fs.length * PAGE_SIZE)) ∨
         (MapType.Allocate = .Allocate ∧
            MapperOps.allocate listOps faE = (some f, faM))) ∧
        MapperOps.mapTo listOps ptE
          (alignDown 0x1000 + fs.length * PAGE_SIZE) f
          ⟨true, true, true, false⟩ faM = none) :=
  ⟨(c4_map_region_validates_first_no_rollback listOps
      [(0x2000, 0x9000)] ⟨[(0x200000, 0x20000000)], 0, 0⟩ 0x1001 0x1000
      ⟨true, true, true, false⟩ .Allocate).1 (.inl (by decide)),
   (c4_map_region_validates_first_no_rollback listOps
      [(0x2000, 0x9000)] ⟨[(0x200000, 0x20000000)], 0, 0⟩ 0x1000 0x2000
      ⟨true, true, true, false⟩ .Allocate).2 (by decide)⟩

/-- Helper: after the first `k + 1` zeroing steps, every byte of the
`k`-th zeroed frame reads as zero — the byte-store state in which the
loop of `map_region_zeroed` installs that frame. -/
theorem zeroMany_take_get (fs : List Nat) :
    ∀ (mem : Nat → Nat) (k : Nat) (hk : k < fs.length) (j : Nat),
      j < PAGE_SIZE →
      zeroMany mem (fs.take (k + 1)) (fs.get ⟨k, hk⟩ + j) = 0 := by
  induction fs with
  | nil =>
    intro mem k hk
    simp at hk
  | cons f rest ih =>
    intro mem k hk j hj
    cases k with
    | zero =>
      show zeroMany mem ((f :: rest).take 1) (f + j) = 0
      show zeroFrame mem f (f + j) = 0
      unfold zeroFrame
      rw [if_pos ⟨Nat.le_add_right _ _, by omega⟩]
    | succ n =>
      show zeroMany mem (f :: rest.take (n + 1)) (rest.get ⟨n, _⟩ + j) = 0
      exact ih (zeroFrame mem f) n (by simpa using hk) j hj

/-- Helper: the loop of `map_region_zeroed` decomposes into a `ZRun`:
an interleaved chain of allocate / zero / install steps whose final
table state is the returned one and whose final byte store is the
iterated zeroing of the installed frames; on success the chain covers
every page. -/
theorem mapPagesZeroed_run {τ σ : Type} (ops : MapperOps τ σ)
    (flags : Flags) :
    ∀ (count page : Nat) (pt : τ) (fa : σ) (mem : Nat → Nat),
      ∃ fs ptE faE,
        ZRun ops flags pt fa mem page fs ptE faE (zeroMany mem fs) ∧
        (mapPagesZeroed ops flags page count pt fa mem).2.1 = ptE ∧
        fs.length ≤ count ∧
        ((mapPagesZeroed ops flags page count pt fa mem).1 = .ok () →
          fs.length = count ∧
          (mapPagesZeroed ops flags page count pt fa mem).2.2.1 = faE ∧
          (mapPagesZeroed ops flags page count pt fa mem).2.2.2
            = zeroMany mem fs) := by
  intro count
  induction count with
  | zero =>
    intro page pt fa mem
    exact ⟨[], pt, fa, .nil _ _ _ _, rfl, Nat.le_refl _,
      fun _ => ⟨rfl, rfl, rfl⟩⟩
  | succ k ih =>
    intro page pt fa mem
    cases ha : ops.allocate fa with
    | mk o fa' =>
      cases o with
      | none =>
        refine ⟨[], pt, fa, .nil _ _ _ _, ?_, Nat.zero_le _, ?_⟩
        · simp [mapPagesZeroed, ha]
        · intro hok
          simp [mapPagesZeroed, ha] at hok
      | some f =>
        cases hm : ops.mapTo pt page f flags fa' with
        | none =>
          refine ⟨[], pt, fa, .nil _ _ _ _, ?_, Nat.zero_le _, ?_⟩
          · simp [mapPagesZeroed, ha, hm]
          · intro hok
            simp [mapPagesZeroed, ha, hm] at hok
        | some pr =>
          obtain ⟨pt₁, fa₂⟩ := pr
          obtain ⟨fs, ptE, faE, hrun, hpt, hlen, hok⟩ :=
            ih (page + PAGE_SIZE) pt₁ fa₂ (zeroFrame mem f)
          refine ⟨f :: fs, ptE, faE,
            .cons _ _ _ _ _ _ _ _ _ _ _ _ ha hm hrun, ?_, ?_, ?_⟩
          · simpa [mapPagesZeroed, ha, hm] using hpt
          · simpa using Nat.succ_le_succ hlen
          · intro hk
            have hres := hok (by simpa [mapPagesZeroed, ha, hm] using hk)
            refine ⟨by simpa using hres.1, ?_, ?_⟩
            · simpa [mapPagesZeroed, ha, hm] using hres.2.1
            · simpa [mapPagesZeroed, ha, hm] using hres.2.2

/-- Claim C7: every run of `map_region_zeroed` decomposes into a chain
in which each installed frame is freshly drawn from the frame
allocator (the output of the next `allocate_frame` call) and is zeroed
in the byte store before being installed; at the moment frame `k` is
installed the store is `zeroMany mem (fs.take (k + 1))`, in which
every byte of that frame reads as zero through the physical-offset
accessor.  The returned table state is the chain's final table state,
and on success the chain covers all pages and the returned allocator
and byte store are the chain's final ones. -/
theorem c7_map_region_zeroed_fresh_zeroed_frames {τ σ : Type}
    (ops : MapperOps τ σ) (pt : τ) (fa : σ) (mem : Nat → Nat)
    (vs size : Nat) (flags : Flags) :
    ∃ fs ptE faE,
      ZRun ops flags pt fa mem (alignDown vs) fs ptE faE
        (zeroMany mem fs) ∧
      (map_region_zeroed ops pt fa mem vs size flags).2.1 = ptE ∧
      (∀ (k : Nat) (hk : k < fs.length) (j : Nat), j < PAGE_SIZE →
        zeroMany mem (fs.take (k + 1)) (fs.get ⟨k, hk⟩ + j) = 0) ∧
      ((map_region_zeroed ops pt fa mem vs size flags).1 = .ok () →
        fs.length = (size + PAGE_SIZE - 1) % U64 / PAGE_SIZE ∧
        (map_region_zeroed ops pt fa mem vs size flags).2.2.1 = faE ∧
        (map_region_zeroed ops pt fa mem vs size flags).2.2.2
          = zeroMany mem fs) := by
  cases hva : validate_alignment vs with
  | error e =>
    refine ⟨[], pt, fa, .nil _ _ _ _, by simp [map_region_zeroed, hva],
      ?_, ?_⟩
    · intro k hk
      simp at hk
    · intro hok
      simp [map_region_zeroed, hva] at hok
  | ok u =>
    cases hvr : validate_region vs size with
    | error e =>
      refine ⟨[], pt, fa, .nil _ _ _ _,
        by simp [map_region_zeroed, hva, hvr], ?_, ?_⟩
      · intro k hk
        simp at hk
      · intro hok
        simp [map_region_zeroed, hva, hvr] at hok
    | ok p =>
      cases hvf : (if vs < USER_SPACE_END then validate_user_flags flags
          else validate_kernel_flags flags) with
      | error e =>
        refine ⟨[], pt, fa, .nil _ _ _ _,
          by simp [map_region_zeroed, hva, hvr, hvf], ?_, ?_⟩
        · intro k hk
          simp at hk
        · intro hok
          simp [map_region_zeroed, hva, hvr, hvf] at hok
      | ok v =>
        cases hp : flags.present with
        | false =>
          refine ⟨[], pt, fa, .nil _ _ _ _,
            by simp [map_region_zeroed, hva, hvr, hvf, hp], ?_, ?_⟩
          · intro k hk
            simp at hk
          · intro hok
            simp [map_region_zeroed, hva, hvr, hvf, hp] at hok
        | true =>
          have heq : map_region_zeroed ops pt fa mem vs size flags
              = mapPagesZeroed ops flags (alignDown vs)
                  ((size + PAGE_SIZE - 1) % U64 / PAGE_SIZE) pt fa mem := by
            simp [map_region_zeroed, hva, hvr, hvf, hp]
          obtain ⟨fs, ptE, faE, hrun, hpt, _, hok⟩ :=
            mapPagesZeroed_run ops flags
              ((size + PAGE_SIZE - 1) % U64 / PAGE_SIZE) (alignDown vs)
              pt fa mem
          rw [heq]
          exact ⟨fs, ptE, faE, hrun, hpt, zeroMany_take_get fs mem, hok⟩

/-- Witness for claim C7 at a concrete run: a one-page user region
mapped through the association-list mapper model with dirty initial
memory. -/
theorem c7_map_region_zeroed_fresh_zeroed_frames_witness :
    ∃ fs ptE faE,
      ZRun listOps ⟨true, true, true, false⟩ []
        ⟨[(0x200000, 0x20000000)], 0, 0⟩ (fun _ => 0xFF)
        (alignDown 0x1000) fs ptE faE (zeroMany (fun _ => 0xFF) fs) ∧
      (map_region_zeroed listOps [] ⟨[(0x200000, 0x20000000)], 0, 0⟩
        (fun _ => 0xFF) 0x1000 0x1000 ⟨true, true, true, false⟩).2.1
        = ptE ∧
      (∀ (k : Nat) (hk : k < fs.length) (j : Nat), j < PAGE_SIZE →
        zeroMany (fun _ => 0xFF) (fs.take (k + 1))
          (fs.get ⟨k, hk⟩ + j) = 0) ∧
      ((map_region_zeroed listOps [] ⟨[(0x200000, 0x20000000)], 0, 0⟩
        (fun _ => 0xFF) 0x1000 0x1000 ⟨true, true, true, false⟩).1
          = .ok () →
        fs.length = (0x1000 + PAGE_SIZE - 1) % U64 / PAGE_SIZE ∧
        (map_region_zeroed listOps [] ⟨[(0x200000, 0x20000000)], 0, 0⟩
          (fun _ => 0xFF) 0x1000 0x1000
          ⟨true, true, true, false⟩).2.2.1 = faE ∧
        (map_region_zeroed listOps [] ⟨[(0x200000, 0x20000000)], 0, 0⟩
          (fun _ => 0xFF) 0x1000 0x1000
          ⟨true, true, true, false⟩).2.2.2
          = zeroMany (fun _ => 0xFF) fs) :=
  c7_map_region_zeroed_fresh_zeroed_frames listOps []
    ⟨[(0x200000, 0x20000000)], 0, 0⟩ (fun _ => 0xFF) 0x1000 0x1000
    ⟨true, true, true, false⟩

/-- Claim C9: a successful `map_user_region` increases
`stats.user_pages` and `stats.mapped_pages` by exactly the page count
of the region (size rounded up to a 4096 multiple, divided by 4096)
and leaves `stats.kernel_pages` unchanged; a failed call leaves the
whole `AddressSpace` (hence `MemoryStats`) unchanged.  The bound
hypotheses rule out `usize` wrap-around of the counters. -/
theorem c9_map_user_region_stats {τ σ : Type} (ops : MapperOps τ σ)
    (s : AddressSpace) (pt : τ) (fa : σ) (start size : Nat)
    (hu : s.stats.user_pages + (size + PAGE_SIZE - 1) % U64 / PAGE_SIZE
      < U64)
    (hmb : s.stats.mapped_pages + (size + PAGE_SIZE - 1) % U64 / PAGE_SIZE
      < U64) :
    ((AddressSpace.map_user_region ops s pt fa start size).1 = .ok () →
      (AddressSpace.map_user_region ops s pt fa start
        size).2.1.stats.user_pages
        = s.stats.user_pages + (size + PAGE_SIZE - 1) % U64 / PAGE_SIZE ∧
      (AddressSpace.map_user_region ops s pt fa start
        size).2.1.stats.mapped_pages
        = s.stats.mapped_pages + (size + PAGE_SIZE - 1) % U64 / PAGE_SIZE ∧
      (AddressSpace.map_user_region ops s pt fa start
        size).2.1.stats.kernel_pages = s.stats.kernel_pages) ∧
    (∀ e, (AddressSpace.map_user_region ops s pt fa start size).1
        = .error e →
      (AddressSpace.map_user_region ops s pt fa start size).2.1 = s) := by
  cases hr : (map_region ops pt fa start size ⟨true, true, true, false⟩
      .Allocate).1 with
  | error e =>
    constructor
    · intro hok
      simp [AddressSpace.map_user_region, hr] at hok
    · intro e2 _
      simp [AddressSpace.map_user_region, hr]
  | ok u =>
    constructor
    · intro _
      refine ⟨?_, ?_, ?_⟩
      · simp only [AddressSpace.map_user_region, hr]
        exact Nat.mod_eq_of_lt hu
      · simp only [AddressSpace.map_user_region, hr]
        exact Nat.mod_eq_of_lt hmb
      · simp [AddressSpace.map_user_region, hr]
    · intro e2 he
      simp [AddressSpace.map_user_region, hr] at he

/-- Witness for claim C9: the spec scenario of two successive
non-overlapping three-page user regions; `user_pages` goes from 0 to 3
and from 3 to 6. -/
theorem c9_map_user_region_stats_witness :
    (AddressSpace.map_user_region listOps ⟨⟨1⟩, ⟨0x5000, 0⟩, ⟨0, 0, 0⟩⟩
      [] ⟨[(0x200000, 0x20000000)], 0, 0⟩ 0x400000
      0x3000).2.1.stats.user_pages = 3 ∧
    (AddressSpace.map_user_region listOps ⟨⟨1⟩, ⟨0x5000, 0⟩, ⟨3, 3, 0⟩⟩
      [] ⟨[(0x203000, 0x20000000)], 0, 0⟩ 0x403000
      0x3000).2.1.stats.user_pages = 6 := by
  constructor
  · have h := (c9_map_user_region_stats listOps
      ⟨⟨1⟩, ⟨0x5000, 0⟩, ⟨0, 0, 0⟩⟩ [] ⟨[(0x200000, 0x20000000)], 0, 0⟩
      0x400000 0x3000 (by decide) (by decide)).1 (by decide)
    rw [h.1]
    decide
  · have h := (c9_map_user_region_stats listOps
      ⟨⟨1⟩, ⟨0x5000, 0⟩, ⟨3, 3, 0⟩⟩ [] ⟨[(0x203000, 0x20000000)], 0, 0⟩
      0x403000 0x3000 (by decide) (by decide)).1 (by decide)
    rw [h.1]
    decide

/-- Claim C10: the invariant `mapped_pages = user_pages +
kernel_pages` holds for every `AddressSpace` produced by
`from_existing` or by a successful `create`, and is preserved by every
successful `map_user_region` and `map_kernel_region` call. -/
theorem c10_mapped_equals_user_plus_kernel :
    (∀ (id : AddressSpaceId) (rf ko : Nat),
      statsInv (AddressSpace.from_existing id rf ko).stats) ∧
    (∀ {τ σ : Type} (ops : MapperOps τ σ) (et : τ) (id : AddressSpaceId)
      (fa : σ) (ko ks ke : Nat) (s : AddressSpace) (fa' : σ),
      AddressSpace.create ops et id fa ko ks ke = (.ok s, fa') →
      statsInv s.stats) ∧
    (∀ {τ σ : Type} (ops : MapperOps τ σ) (s : AddressSpace) (pt : τ)
      (fa : σ) (st sz : Nat),
      statsInv s.stats →
      (AddressSpace.map_user_region ops s pt fa st sz).1 = .ok () →
      statsInv (AddressSpace.map_user_region ops s pt fa st sz).2.1.stats) ∧
    (∀ {τ σ : Type} (ops : MapperOps τ σ) (s : AddressSpace) (pt : τ)
      (fa : σ) (st sz : Nat),
      statsInv s.stats →
      (AddressSpace.map_kernel_region ops s pt fa st sz).1 = .ok () →
      statsInv (AddressSpace.map_kernel_region ops s pt fa st
        sz).2.1.stats) := by
  refine ⟨?_, ?_, ?_, ?_⟩
  · intro id rf ko
    simp [statsInv, AddressSpace.from_existing, MemoryStats.default]
  · intro τ σ ops et id fa ko ks ke s fa' h
    cases ha : ops.allocate fa with
    | mk o fa₁ =>
      cases o with
      | none =>
        simp [AddressSpace.create, ha] at h
      | some root =>
        cases hr : (map_region ops et fa₁ ks (u64sub ke ks)
            ⟨true, true, false, true⟩ .Identity).1 with
        | error e =>
          simp [AddressSpace.create, ha, hr] at h
        | ok u =>
          simp only [AddressSpace.create, ha, hr, Prod.mk.injEq] at h
          obtain ⟨h1, _⟩ := h
          obtain ⟨rfl⟩ := Except.ok.inj h1
          have hlt : u64sub ke ks / PAGE_SIZE < U64 := by
            have h2 : u64sub ke ks < U64 :=
              Nat.mod_lt _ (by norm_num [U64])
            exact Nat.lt_of_le_of_lt (Nat.div_le_self _ _) h2
          show u64sub ke ks / PAGE_SIZE
            = (0 + u64sub ke ks / PAGE_SIZE) % U64
          rw [Nat.zero_add, Nat.mod_eq_of_lt hlt]
  · intro τ σ ops s pt fa st sz hinv hok
    cases hr : (map_region ops pt fa st sz ⟨true, true, true, false⟩
        .Allocate).1 with
    | error e =>
      simp [AddressSpace.map_user_region, hr] at hok
    | ok u =>
      simp only [AddressSpace.map_user_region, hr]
      show (s.stats.mapped_pages + _) % U64
        = ((s.stats.user_pages + _) % U64 + s.stats.kernel_pages) % U64
      rw [hinv, Nat.mod_add_mod, Nat.mod_add_mod, Nat.add_right_comm]
  · intro τ σ ops s pt fa st sz hinv hok
    cases hr : (map_region ops pt fa st sz ⟨true, true, false, true⟩
        .Identity).1 with
    | error e =>
      simp [AddressSpace.map_kernel_region, hr] at hok
    | ok u =>
      simp only [AddressSpace.map_kernel_region, hr]
      show (s.stats.mapped_pages + _) % U64
        = (s.stats.user_pages + (s.stats.kernel_pages + _) % U64) % U64
      rw [hinv, Nat.mod_add_mod, Nat.add_mod_mod, ← Nat.add_assoc]

/-- Witness for claim C10: the invariant checked through the theorem
on a wrapped bootloader root table, a successful concrete `create`, a
successful user mapping and a successful kernel mapping. -/
theorem c10_mapped_equals_user_plus_kernel_witness :
    statsInv (AddressSpace.from_existing ⟨0⟩ 0x1000 0).stats ∧
    statsInv (⟨⟨1⟩, ⟨0x200000, 0⟩, ⟨1, 0, 1⟩⟩ : AddressSpace).stats ∧
    statsInv (AddressSpace.map_user_region listOps
      ⟨⟨1⟩, ⟨0x5000, 0⟩, ⟨5, 2, 3⟩⟩ []
      ⟨[(0x200000, 0x20000000)], 0, 0⟩ 0x400000 0x3000).2.1.stats ∧
    statsInv (AddressSpace.map_kernel_region listOps
      ⟨⟨1⟩, ⟨0x5000, 0⟩, ⟨5, 2, 3⟩⟩ [] ⟨[], 0, 0⟩ KERNEL_SPACE_START
      0x1000).2.1.stats :=
  ⟨c10_mapped_equals_user_plus_kernel.1 ⟨0⟩ 0x1000 0,
   c10_mapped_equals_user_plus_kernel.2.1 listOps [] ⟨1⟩
     ⟨[(0x200000, 0x20000000)], 0, 0⟩ 0 0x800000000000 0x800000001000
     ⟨⟨1⟩, ⟨0x200000, 0⟩, ⟨1, 0, 1⟩⟩ ⟨[(0x201000, 0x20000000)], 0, 0⟩
     (by decide),
   c10_mapped_equals_user_plus_kernel.2.2.1 listOps
     ⟨⟨1⟩, ⟨0x5000, 0⟩, ⟨5, 2, 3⟩⟩ [] ⟨[(0x200000, 0x20000000)], 0, 0⟩
     0x400000 0x3000 (by decide) (by decide),
   c10_mapped_equals_user_plus_kernel.2.2.2 listOps
     ⟨⟨1⟩, ⟨0x5000, 0⟩, ⟨5, 2, 3⟩⟩ [] ⟨[], 0, 0⟩ KERNEL_SPACE_START
     0x1000 (by decide) (by decide)⟩

end OsPaging
